import Mathlib

/-!
Verification of the mkt-intel-agent repository against its specification.

The development shallowly embeds the Python sources:
  * src/search-agent/agent.py (tool gate sql_query, tool hybrid_search,
    helpers process_queries and process_single_query),
  * src/data-process/data-to-db.py (ensure_directories, process_file, main),
  * src/doc-process/scripts/process-doc.py (generate_document_id, create_chunk_form),
  * src/doc-process/scripts/doc-to-lance.py (the DocumentChunk schema).

Python strings are modelled as Lean String; the string helpers below model
the Python methods (strip, upper, lower, startswith, slicing) on the
ASCII range, which covers every literal the programs compare against.
Machine floats occur only as the relevance score that hybrid_search renders;
they are modelled as rationals with a fixed four-decimal rendering.
-/

namespace PyStr

/-- Characters stripped by the Python str.strip method with no argument
(the ASCII whitespace characters; Python also strips some further Unicode
whitespace, which none of the inputs of interest contain). -/
def is_space (c : Char) : Bool :=
  c == ' ' || c == '\t' || c == '\n' || c == '\x0d' || c == '\x0b' || c == '\x0c'

/-- Model of Python str.strip(): remove leading and trailing whitespace. -/
def strip (s : String) : String :=
  ⟨((s.data.dropWhile is_space).reverse.dropWhile is_space).reverse⟩

/-- Model of str.upper() on one character, on the ASCII range. -/
def upper_char (c : Char) : Char :=
  if 'a' ≤ c && c ≤ 'z' then Char.ofNat (c.toNat - 32) else c

/-- Model of Python str.upper() on the ASCII range. -/
def upper (s : String) : String :=
  ⟨s.data.map upper_char⟩

/-- Model of str.lower() on one character, on the ASCII range. -/
def lower_char (c : Char) : Char :=
  if 'A' ≤ c && c ≤ 'Z' then Char.ofNat (c.toNat + 32) else c

/-- Model of Python str.lower() on the ASCII range. -/
def lower (s : String) : String :=
  ⟨s.data.map lower_char⟩

/-- Model of Python s.startswith(p). -/
def startswith (s p : String) : Bool :=
  p.data.isPrefixOf s.data

/-- Model of the Python slice s[:n]. -/
def take (n : Nat) (s : String) : String :=
  ⟨s.data.take n⟩

/-- Model of the Python format spec 0wd: the decimal digits of n,
left-padded with zeros to a minimum width w. -/
def pad_zeros (w : Nat) (n : Nat) : String :=
  let s := toString n
  ⟨List.replicate (w - s.data.length) '0' ++ s.data⟩

end PyStr

namespace Agent

/-!
Embedding of src/search-agent/agent.py.

A LangChain message is modelled by its type tag ("ai", "tool", "human",
"system"), its content string, and its list of pending tool calls (here just
the tool names). In langchain-core the attribute tool_calls is a declared
field of the AIMessage class only, present on every AIMessage instance with
default value [] ; the other message classes do not declare it. The Python
builtin hasattr therefore answers true on a message exactly when the message
is an AI message, which hasattr_tool_calls models.
-/

/-- A LangChain chat message as observed by process_queries. -/
structure Message where
  type : String
  content : String
  tool_calls : List String
  deriving DecidableEq, Repr

/-- Model of hasattr(msg, "tool_calls"): the field is declared (with default
value []) on the AIMessage class and on no other message class, so hasattr
holds exactly for messages of type "ai", whatever the list value is. -/
def hasattr_tool_calls (m : Message) : Bool :=
  m.type == "ai"

/-- One record of the list returned by process_queries. -/
structure QueryResult where
  query : String
  response : Option String
  success : Bool
  deriving DecidableEq, Repr

/-- The capture loop of process_queries for one query: the run of the query
is the sequence of last-messages observed while streaming the graph, and
final_response is overwritten by msg.content whenever
msg.type == "ai" and not hasattr(msg, "tool_calls") holds. -/
def capture_final_response (run : List Message) : Option String :=
  run.foldl
    (fun acc m =>
      if m.type == "ai" && !(hasattr_tool_calls m) then some m.content else acc)
    none

/-- Model of process_queries: runs maps each query to the sequence of
last-messages its streamed run produces; per query the function records the
query text, the captured final response, and success iff a response was
captured (final_response is not None). -/
def process_queries (queries : List String) (runs : String → List Message) :
    List QueryResult :=
  queries.map fun q =>
    let r := capture_final_response (runs q)
    { query := q, response := r, success := r.isSome }

/-- The fallback string of process_single_query. -/
def fallback_message : String :=
  "No response generated"

/-- Model of process_single_query: Python returns
results[0]["response"] if results else "No response generated", where the
if tests emptiness of the results list; the heterogeneous Python return
value (a response string, None, or the fallback string) is modelled as an
Option String with None for the Python None. -/
def process_single_query (query : String) (runs : String → List Message) :
    Option String :=
  match process_queries [query] runs with
  | [] => some fallback_message
  | r :: _ => r.response

/-- The refusal message of the sql_query tool. -/
def sql_refusal_message : String :=
  "Error: Only SELECT queries are allowed. Please provide a SELECT query."

/-- The literal keyword the sql_query gate tests for. -/
def select_keyword : String :=
  "SELECT"

/-- Outcome of the security gate of the sql_query tool: either the refusal
string is returned with the database driver never invoked, or the original
statement text reaches cursor.execute. -/
inductive SqlOutcome where
  | refused (msg : String)
  | executed (sql : String)
  deriving DecidableEq, Repr

/-- Model of the gate of sql_query: sql_upper = sql.strip().upper(), and the
statement is executed iff sql_upper.startswith("SELECT"); otherwise the
refusal message is returned before any database connection is opened. -/
def sql_query_gate (sql : String) : SqlOutcome :=
  let sql_upper := PyStr.upper (PyStr.strip sql)
  if PyStr.startswith sql_upper select_keyword then
    SqlOutcome.executed sql
  else
    SqlOutcome.refused sql_refusal_message

/-- One row of the pandas frame returned by the LanceDB hybrid search, with
the columns that hybrid_search reads; the float32 relevance score is
modelled as a rational. -/
structure SearchRow where
  chunk_id : String
  text : String
  file_name : String
  start_page : Int
  end_page : Int
  relevance_score : ℚ
  deriving DecidableEq, Repr

/-- Rendering of the relevance score: model of the Python format spec .4f
(fixed point, four decimals), with the float realised as a rational and
rounding to the nearest ten-thousandth. -/
def format_fixed4 (q : ℚ) : String :=
  let scaled : Int := round (q * 10000)
  let sign := if scaled < 0 then "-" else ""
  let n := scaled.natAbs
  sign ++ toString (n / 10000) ++ "." ++ PyStr.pad_zeros 4 (n % 10000)

/-- The block hybrid_search formats for one result row. -/
def format_row (r : SearchRow) : String :=
  "[CHUNK_ID: " ++ r.chunk_id ++ "]\n" ++
  "Source: " ++ r.file_name ++ " (pages " ++ toString r.start_page ++ "-" ++
    toString r.end_page ++ ")\n" ++
  "Relevance: " ++ format_fixed4 r.relevance_score ++ "\n" ++
  "Content:\n" ++ PyStr.take 500 r.text ++ "...\n"

/-- The fixed message hybrid_search returns on an empty result set. -/
def no_results_message : String :=
  "No relevant documents found for this query."

/-- The separator line joining formatted result blocks. -/
def result_separator : String :=
  "\n---\n"

/-- Model of hybrid_search: the whole body runs under try/except, so the
effectful search is an Except value (error message, or list of rows); an
exception yields the descriptive error string, an empty result set the
fixed no-results message, and otherwise the formatted blocks joined by
the separator line. The model is a total function: no outcome raises. -/
def hybrid_search (outcome : Except String (List SearchRow)) : String :=
  match outcome with
  | Except.error e => "Error performing hybrid search: " ++ e
  | Except.ok results =>
    if results.isEmpty then
      no_results_message
    else
      String.intercalate result_separator (results.map format_row)

end Agent

namespace DataToDb

/-!
Embedding of src/data-process/data-to-db.py.

The directory contract is modelled by three booleans recording whether the
directories data/unprocessed, data/processed, and databases exist.
A tabular intake file is modelled by its stem and its suffix (the value of
file_path.suffix, for instance ".csv"); conversion side effects and
conversion failures are modelled by two environment functions (one per
converter) returning Except values.
-/

/-- Existence of the three directories data-to-db.py works with. -/
structure DirState where
  unprocessed : Bool
  processed : Bool
  databases : Bool
  deriving DecidableEq, Repr

/-- Model of ensure_directories: PROCESSED_DIR.mkdir(exist_ok=True) and
DATABASE_DIR.mkdir(exist_ok=True); no other directory is touched. -/
def ensure_directories (s : DirState) : DirState :=
  { s with processed := true, databases := true }

/-- The directory phase of main: ensure_directories runs first, then main
returns early (processing nothing) unless UNPROCESSED_DIR exists. The
returned Bool records whether main proceeds past the existence check. -/
def main_dir_phase (s : DirState) : DirState × Bool :=
  let s1 := ensure_directories s
  (s1, s1.unprocessed)

/-- A tabular intake file: stem (name without extension) and suffix
(as file_path.suffix returns it, dot included). -/
structure TabFile where
  stem : String
  suffix : String
  deriving DecidableEq, Repr

/-- File locations and created databases, as process_file mutates them. -/
structure FsState where
  intake : List TabFile
  archived : List TabFile
  databases : List String
  deriving DecidableEq, Repr

/-- Model of process_file. The extension is file_path.suffix.lower(); a
.csv file goes through convert_csv_to_db and a .xlsx or .xls file through
convert_xlsx_to_db, each modelled by its environment function (Except.error
models the converter raising). On success the database file is created and
the source file is moved to the processed directory; any exception is
printed and re-raised, reaching the caller with the state unchanged (in
particular the source file is not moved out of the intake directory). An
unsupported extension only prints a warning and returns. -/
def process_file (conv_csv conv_xlsx : TabFile → Except String Unit)
    (st : FsState) (f : TabFile) : Except String FsState :=
  let ext := PyStr.lower f.suffix
  if ext == ".csv" then
    match conv_csv f with
    | Except.error e => Except.error e
    | Except.ok _ =>
      Except.ok
        { intake := st.intake.erase f
          archived := st.archived ++ [f]
          databases := st.databases ++ [f.stem ++ ".db"] }
  else if ext == ".xlsx" || ext == ".xls" then
    match conv_xlsx f with
    | Except.error e => Except.error e
    | Except.ok _ =>
      Except.ok
        { intake := st.intake.erase f
          archived := st.archived ++ [f]
          databases := st.databases ++ [f.stem ++ ".db"] }
  else
    Except.ok st

/-- The per-file loop of main: each file is processed inside its own
try/except; a success bumps the successful tally, an exception is caught,
printed, and bumps the failed tally, and the loop then continues with the
remaining files. Returns the final state with the pair
(successful, failed). -/
def run_files (conv_csv conv_xlsx : TabFile → Except String Unit) :
    List TabFile → FsState → FsState × Nat × Nat
  | [], st => (st, 0, 0)
  | f :: rest, st =>
    match process_file conv_csv conv_xlsx st f with
    | Except.ok st1 =>
      let r := run_files conv_csv conv_xlsx rest st1
      (r.1, r.2.1 + 1, r.2.2)
    | Except.error _ =>
      let r := run_files conv_csv conv_xlsx rest st
      (r.1, r.2.1, r.2.2 + 1)

end DataToDb

namespace ProcessDoc

/-!
Embedding of src/doc-process/scripts/process-doc.py, restricted to
generate_document_id and create_chunk_form.

The raw Reducto result is modelled down to the fields create_chunk_form
reads: raw_result["result"]["chunks"] is a list of chunks, each carrying its
content string and an optional "blocks" list (chunk_data.get("blocks", [])
falls back to [] when the key is absent); each block optionally carries a
"bbox", and a bbox optionally carries an "original_page" integer.
The call random.choices(string.ascii_uppercase, k=3) is modelled by a triple
of Fin 26 picks supplied as an argument.
-/

/-- A block bbox, with the optional key original_page. -/
structure Bbox where
  original_page : Option Int
  deriving DecidableEq, Repr

/-- A block of a chunk, with the optional key bbox. -/
structure Block where
  bbox : Option Bbox
  deriving DecidableEq, Repr

/-- One entry of raw_result["result"]["chunks"]. -/
structure ChunkData where
  content : String
  blocks : Option (List Block)
  deriving DecidableEq, Repr

/-- The part of the raw Reducto result that create_chunk_form reads. -/
structure RawResult where
  chunks : List ChunkData
  deriving DecidableEq, Repr

/-- One record of the chunk-form output. -/
structure ChunkRecord where
  chunk_id : String
  text : String
  file_name : String
  start_page : Option Int
  end_page : Option Int
  deriving DecidableEq, Repr

/-- Model of generate_document_id: three uniform picks from
string.ascii_uppercase joined into a three-character string. -/
def generate_document_id (picks : Fin 26 × Fin 26 × Fin 26) : String :=
  ⟨[Char.ofNat ('A'.toNat + picks.1.val),
    Char.ofNat ('A'.toNat + picks.2.1.val),
    Char.ofNat ('A'.toNat + picks.2.2.val)]⟩

/-- The page numbers collected for one chunk: for each block, the value
block["bbox"]["original_page"] when "bbox" is a key of the block and
"original_page" is a key of the bbox; blocks missing either key contribute
nothing. -/
def chunk_pages (cd : ChunkData) : List Int :=
  (cd.blocks.getD []).filterMap fun b => b.bbox.bind Bbox.original_page

/-- Model of Python min(pages) if pages else None. -/
def list_min : List Int → Option Int
  | [] => none
  | x :: xs => some (xs.foldl min x)

/-- Model of Python max(pages) if pages else None. -/
def list_max : List Int → Option Int
  | [] => none
  | x :: xs => some (xs.foldl max x)

/-- The record create_chunk_form builds for the chunk at 1-based index idx:
chunk_id is doc_id followed by idx rendered with format spec 03d, text is
the content field verbatim, and the page range comes from chunk_pages. -/
def chunk_record (doc_id : String) (idx : Nat) (cd : ChunkData)
    (file_name : String) : ChunkRecord :=
  { chunk_id := doc_id ++ PyStr.pad_zeros 3 idx
    text := cd.content
    file_name := file_name
    start_page := list_min (chunk_pages cd)
    end_page := list_max (chunk_pages cd) }

/-- The enumerate(..., start=1) loop of create_chunk_form. -/
def form_chunks (doc_id file_name : String) : Nat → List ChunkData → List ChunkRecord
  | _, [] => []
  | idx, cd :: rest =>
    chunk_record doc_id idx cd file_name :: form_chunks doc_id file_name (idx + 1) rest

/-- Model of create_chunk_form: one fresh document id for the whole call,
then one record per chunk in order, indices counting from 1. -/
def create_chunk_form (raw : RawResult) (file_name : String)
    (picks : Fin 26 × Fin 26 × Fin 26) : List ChunkRecord :=
  form_chunks (generate_document_id picks) file_name 1 raw.chunks

/-- ASCII uppercase letter test, for the chunk-id pattern. -/
def is_upper (c : Char) : Bool := 'A' ≤ c && c ≤ 'Z'

/-- ASCII decimal digit test, for the chunk-id pattern. -/
def is_digit (c : Char) : Bool := '0' ≤ c && c ≤ '9'

/-- The pattern the specification states for chunk ids: exactly three
uppercase letters followed by exactly three digits (total length six). -/
def matches_chunk_id_pattern (s : String) : Bool :=
  match s.data with
  | [a, b, c, d, e, f] =>
    is_upper a && is_upper b && is_upper c && is_digit d && is_digit e && is_digit f
  | _ => false

end ProcessDoc

namespace DocToLance

/-- Modelled from the declared schema of src/doc-process/scripts/doc-to-lance.py:
the DocumentChunk LanceModel declares chunk_id, text and file_name as str and
start_page and end_page as int — required, not Optional — so pydantic
validation of an incoming chunk record succeeds only when both page fields
carry an integer; a record whose start_page or end_page is null is rejected
by table.add instead of being loaded. -/
def document_chunk_accepts (r : ProcessDoc.ChunkRecord) : Bool :=
  r.start_page.isSome && r.end_page.isSome

end DocToLance

/-!
Concrete instances used by witnesses and counterexamples.
-/

/-- A run whose stream ends with an AI answer carrying no pending tool call:
the single observed message is an AI message with content "Hello" and an
empty tool_calls list. -/
def run_hello : String → List Agent.Message :=
  fun _ => [{ type := "ai", content := "Hello", tool_calls := [] }]

/-- The document id picks spelling "ABC". -/
def picks_abc : Fin 26 × Fin 26 × Fin 26 :=
  (⟨0, by decide⟩, ⟨1, by decide⟩, ⟨2, by decide⟩)

/-- A destructive statement the sql_query gate must refuse. -/
def stmt_drop : String := "DROP TABLE data"

/-- An update statement containing SELECT nowhere at its start. -/
def stmt_update : String := "UPDATE data SET co2=0"

/-- A lowercase select statement the gate must accept. -/
def stmt_select_lower : String := "select co2 from data"

/-- A whitespace-prefixed select statement the gate must accept. -/
def stmt_select_padded : String := "  SELECT co2 FROM data "

/-- The demo document file name. -/
def report_pdf : String := "report.pdf"

/-- The message of the demo conversion failure. -/
def bad_csv_msg : String := "bad csv"

/-- A first demo chunk whose blocks carry the original pages 3, 5, 4 (one
block in the middle has no bbox). -/
def demo_chunk0 : ProcessDoc.ChunkData :=
  { content := "first"
    blocks := some [{ bbox := some { original_page := some 3 } },
                    { bbox := none },
                    { bbox := some { original_page := some 5 } },
                    { bbox := some { original_page := some 4 } }] }

/-- A second demo chunk none of whose blocks carries a page value. -/
def demo_chunk1 : ProcessDoc.ChunkData :=
  { content := "second", blocks := some [{ bbox := none }] }

/-- A demo raw parse result with two chunks. -/
def demo_raw : ProcessDoc.RawResult :=
  { chunks := [demo_chunk0, demo_chunk1] }

/-- A raw parse result with 1000 chunks, each with content "t" and no
blocks key. -/
def big_raw : ProcessDoc.RawResult :=
  { chunks := List.replicate 1000 { content := "t", blocks := none } }

/-- A raw parse result whose single chunk carries no page value on any
block. -/
def pageless_raw : ProcessDoc.RawResult :=
  { chunks := [{ content := "Body text", blocks := some [{ bbox := none }] }] }

/-- A CSV converter environment that raises on every file. -/
def conv_csv_fail : DataToDb.TabFile → Except String Unit :=
  fun _ => Except.error bad_csv_msg

/-- An XLSX converter environment that succeeds on every file. -/
def conv_xlsx_ok : DataToDb.TabFile → Except String Unit :=
  fun _ => Except.ok ()

/-- A demo CSV intake file. -/
def file_a : DataToDb.TabFile := { stem := "a", suffix := ".csv" }

/-- A demo XLSX intake file with an uppercase suffix. -/
def file_b : DataToDb.TabFile := { stem := "b", suffix := ".XLSX" }

/-- A demo file-system state whose intake directory holds the two demo
files. -/
def demo_fs : DataToDb.FsState :=
  { intake := [file_a, file_b], archived := [], databases := [] }

/-!
Helper lemmas shared by the claim theorems.
-/

/-- The capture condition of process_queries compares the message type with
"ai" and conjoins the negation of hasattr_tool_calls, which is that very
comparison; the conjunction is therefore false on every message and the
fold returns its accumulator unchanged. -/
lemma capture_fold_fixed (run : List Agent.Message) (acc : Option String) :
    run.foldl
      (fun acc m =>
        if m.type == "ai" && !(Agent.hasattr_tool_calls m) then some m.content
        else acc)
      acc = acc := by
  induction run generalizing acc with
  | nil => rfl
  | cons m rest ih =>
    rw [List.foldl_cons]
    have hstep :
        (if m.type == "ai" && !(Agent.hasattr_tool_calls m) then some m.content
          else acc) = acc := by
      simp [Agent.hasattr_tool_calls]
    rw [hstep]
    exact ih acc

/-- capture_final_response never yields a response, for any run. -/
lemma capture_final_response_eq_none (run : List Agent.Message) :
    Agent.capture_final_response run = none :=
  capture_fold_fixed run none

/-- The fold computing a Python min over a nonempty list lands in the list. -/
lemma foldl_min_mem (xs : List Int) : ∀ x : Int, xs.foldl min x ∈ x :: xs := by
  induction xs with
  | nil => intro x; simp
  | cons y ys ih =>
    intro x
    have h := ih (min x y)
    simp only [List.foldl]
    rcases List.mem_cons.mp h with h1 | h1
    · rcases min_choice x y with hc | hc
      · rw [h1, hc]; exact List.mem_cons_self _ _
      · rw [h1, hc]; exact List.mem_cons_of_mem _ (List.mem_cons_self _ _)
    · exact List.mem_cons_of_mem _ (List.mem_cons_of_mem _ h1)

/-- The fold computing a Python min is a lower bound of the list. -/
lemma foldl_min_le (xs : List Int) :
    ∀ x : Int, ∀ p ∈ x :: xs, xs.foldl min x ≤ p := by
  induction xs with
  | nil =>
    intro x p hp
    rcases List.mem_cons.mp hp with h | h
    · subst h; simp
    · simp at h
  | cons y ys ih =>
    intro x p hp
    simp only [List.foldl]
    rcases List.mem_cons.mp hp with h | h
    · exact le_trans (le_trans (ih (min x y) _ (List.mem_cons_self _ _))
        (min_le_left x y)) (le_of_eq h.symm)
    · rcases List.mem_cons.mp h with h1 | h1
      · exact le_trans (le_trans (ih (min x y) _ (List.mem_cons_self _ _))
          (min_le_right x y)) (le_of_eq h1.symm)
      · exact ih (min x y) p (List.mem_cons_of_mem _ h1)

/-- The fold computing a Python max over a nonempty list lands in the list. -/
lemma foldl_max_mem (xs : List Int) : ∀ x : Int, xs.foldl max x ∈ x :: xs := by
  induction xs with
  | nil => intro x; simp
  | cons y ys ih =>
    intro x
    have h := ih (max x y)
    simp only [List.foldl]
    rcases List.mem_cons.mp h with h1 | h1
    · rcases max_choice x y with hc | hc
      · rw [h1, hc]; exact List.mem_cons_self _ _
      · rw [h1, hc]; exact List.mem_cons_of_mem _ (List.mem_cons_self _ _)
    · exact List.mem_cons_of_mem _ (List.mem_cons_of_mem _ h1)

/-- The fold computing a Python max is an upper bound of the list. -/
lemma le_foldl_max (xs : List Int) :
    ∀ x : Int, ∀ p ∈ x :: xs, p ≤ xs.foldl max x := by
  induction xs with
  | nil =>
    intro x p hp
    rcases List.mem_cons.mp hp with h | h
    · subst h; simp
    · simp at h
  | cons y ys ih =>
    intro x p hp
    simp only [List.foldl]
    rcases List.mem_cons.mp hp with h | h
    · exact le_trans (le_of_eq h) (le_trans (le_max_left x y)
        (ih (max x y) _ (List.mem_cons_self _ _)))
    · rcases List.mem_cons.mp h with h1 | h1
      · exact le_trans (le_of_eq h1) (le_trans (le_max_right x y)
          (ih (max x y) _ (List.mem_cons_self _ _)))
      · exact ih (max x y) p (List.mem_cons_of_mem _ h1)

/-- Characterisation of list_min on a nonempty list: its value is an element
and a lower bound. -/
lemma list_min_spec (pages : List Int) (m : Int)
    (h : ProcessDoc.list_min pages = some m) :
    m ∈ pages ∧ ∀ p ∈ pages, m ≤ p := by
  cases pages with
  | nil => exact absurd h (by simp [ProcessDoc.list_min])
  | cons x xs =>
    have hm : xs.foldl min x = m := by
      simpa [ProcessDoc.list_min] using h
    exact ⟨hm ▸ foldl_min_mem xs x, fun p hp => hm ▸ foldl_min_le xs x p hp⟩

/-- Characterisation of list_max on a nonempty list: its value is an element
and an upper bound. -/
lemma list_max_spec (pages : List Int) (m : Int)
    (h : ProcessDoc.list_max pages = some m) :
    m ∈ pages ∧ ∀ p ∈ pages, p ≤ m := by
  cases pages with
  | nil => exact absurd h (by simp [ProcessDoc.list_max])
  | cons x xs =>
    have hm : xs.foldl max x = m := by
      simpa [ProcessDoc.list_max] using h
    exact ⟨hm ▸ foldl_max_mem xs x, fun p hp => hm ▸ le_foldl_max xs x p hp⟩

/-- list_min answers none exactly on the empty list. -/
lemma list_min_eq_none (pages : List Int) :
    ProcessDoc.list_min pages = none ↔ pages = [] := by
  cases pages <;> simp [ProcessDoc.list_min]

/-- list_max answers none exactly on the empty list. -/
lemma list_max_eq_none (pages : List Int) :
    ProcessDoc.list_max pages = none ↔ pages = [] := by
  cases pages <;> simp [ProcessDoc.list_max]

/-- form_chunks produces one record per chunk. -/
lemma form_chunks_length (d fn : String) :
    ∀ (i : Nat) (l : List ProcessDoc.ChunkData),
      (ProcessDoc.form_chunks d fn i l).length = l.length := by
  intro i l
  induction l generalizing i with
  | nil => rfl
  | cons cd rest ih => simp [ProcessDoc.form_chunks, ih]

/-- The record at position k of form_chunks d fn i l is the record built
from the chunk at position k with 1-based index i + k. -/
lemma form_chunks_get? (d fn : String) :
    ∀ (l : List ProcessDoc.ChunkData) (i k : Nat),
      (ProcessDoc.form_chunks d fn i l).get? k =
        (l.get? k).map fun cd => ProcessDoc.chunk_record d (i + k) cd fn := by
  intro l
  induction l with
  | nil => intro i k; simp [ProcessDoc.form_chunks]
  | cons cd rest ih =>
    intro i k
    cases k with
    | zero => simp [ProcessDoc.form_chunks]
    | succ k =>
      have h := ih (i + 1) k
      have harith : i + 1 + k = i + (k + 1) := by omega
      rw [harith] at h
      simpa [ProcessDoc.form_chunks] using h

/-- The per-file tally of the converter loop: successes plus failures equal
the number of files handed to the loop. -/
lemma run_files_tally (conv_csv conv_xlsx : DataToDb.TabFile → Except String Unit) :
    ∀ (files : List DataToDb.TabFile) (st : DataToDb.FsState),
      (DataToDb.run_files conv_csv conv_xlsx files st).2.1 +
        (DataToDb.run_files conv_csv conv_xlsx files st).2.2 = files.length := by
  intro files
  induction files with
  | nil => intro st; rfl
  | cons f rest ih =>
    intro st
    simp only [DataToDb.run_files]
    cases DataToDb.process_file conv_csv conv_xlsx st f with
    | ok st1 => have := ih st1; simp; omega
    | error e => have := ih st; simp; omega

set_option maxHeartbeats 2000000 in
set_option maxRecDepth 10000 in
/-- Rendering a number below 1000 with format spec 03d yields exactly three
decimal digit characters. -/
lemma pad3_digits :
    ∀ n < 1000, (PyStr.pad_zeros 3 n).data.length = 3 ∧
      ∀ c ∈ (PyStr.pad_zeros 3 n).data, ProcessDoc.is_digit c = true := by
  decide

/-- Each of the 26 letters used by generate_document_id is an ASCII
uppercase letter. -/
lemma is_upper_letter :
    ∀ i < 26, ProcessDoc.is_upper (Char.ofNat (65 + i)) = true := by
  decide

/-- The characters of a generated document id. -/
lemma generate_document_id_data (picks : Fin 26 × Fin 26 × Fin 26) :
    (ProcessDoc.generate_document_id picks).data =
      [Char.ofNat (65 + picks.1.val), Char.ofNat (65 + picks.2.1.val),
       Char.ofNat (65 + picks.2.2.val)] := rfl

/-- A string whose six characters are three uppercase letters followed by
three digits matches the chunk-id pattern. -/
lemma matches_pattern_of (a b c d e f : Char) (s : String)
    (hs : s.data = [a, b, c, d, e, f])
    (ha : ProcessDoc.is_upper a = true) (hb : ProcessDoc.is_upper b = true)
    (hc : ProcessDoc.is_upper c = true) (hd : ProcessDoc.is_digit d = true)
    (he : ProcessDoc.is_digit e = true) (hf : ProcessDoc.is_digit f = true) :
    ProcessDoc.matches_chunk_id_pattern s = true := by
  unfold ProcessDoc.matches_chunk_id_pattern
  rw [hs]
  simp [ha, hb, hc, hd, he, hf]

/-- The record at position k of create_chunk_form, explicitly. -/
lemma create_chunk_form_get? (raw : ProcessDoc.RawResult) (file_name : String)
    (picks : Fin 26 × Fin 26 × Fin 26) (k : Nat) (cd : ProcessDoc.ChunkData)
    (hk : raw.chunks.get? k = some cd) :
    (ProcessDoc.create_chunk_form raw file_name picks).get? k =
      some
        { chunk_id :=
            ProcessDoc.generate_document_id picks ++ PyStr.pad_zeros 3 (k + 1)
          text := cd.content
          file_name := file_name
          start_page := ProcessDoc.list_min (ProcessDoc.chunk_pages cd)
          end_page := ProcessDoc.list_max (ProcessDoc.chunk_pages cd) } := by
  rw [ProcessDoc.create_chunk_form, form_chunks_get?, hk]
  simp [ProcessDoc.chunk_record, Nat.add_comm]

/-- C1: the specification claims process_queries captures, for each query,
the content of the final AI message of the run (an AI message with no
pending tool call), with success true iff one was captured. The code guards
the capture with not hasattr(last_message, "tool_calls"); the attribute is
a declared field of every AIMessage, so the guard is false on every AI
message and no run ever captures anything: every returned record has
response None and success False, even when the run ends with a final AI
answer. This refutes the claimed capture behaviour and confirms the
divergence between the code and the specification. -/
theorem process_queries_never_captures (queries : List String)
    (runs : String → List Agent.Message) (r : Agent.QueryResult)
    (hr : r ∈ Agent.process_queries queries runs) :
    r.response = none ∧ r.success = false := by
  rcases List.mem_map.mp hr with ⟨q, _, hq⟩
  rw [← hq]
  simp [capture_final_response_eq_none]

/-- Witness for C1: a query whose run ends with an AI message carrying the
answer "Hello" and an empty tool_calls list still yields a record with no
response and success False. -/
theorem process_queries_never_captures_witness :
    ({ query := "hi", response := none, success := false } :
        Agent.QueryResult) ∈ Agent.process_queries ["hi"] run_hello ∧
    ({ query := "hi", response := none, success := false } :
        Agent.QueryResult).response = none ∧
    ({ query := "hi", response := none, success := false } :
        Agent.QueryResult).success = false := by
  refine ⟨by decide, ?_⟩
  exact process_queries_never_captures ["hi"] run_hello _ (by decide)

/-- C2: the specification claims process_single_query returns the captured
response text, or the fixed fallback string "No response generated" when no
final response was produced. In the code the fallback is guarded by
emptiness of the results list, which for the one-element query list is
never empty, and the capture itself never fires, so the function returns
the Python None on every input — neither a response text nor the fallback
string ever comes back. -/
theorem process_single_query_always_none (query : String)
    (runs : String → List Agent.Message) :
    Agent.process_single_query query runs = none := by
  simp [Agent.process_single_query, Agent.process_queries,
    capture_final_response_eq_none]

/-- C3: the sql_query gate executes a statement against the database iff
the statement, stripped of surrounding whitespace and uppercased, begins
with the literal SELECT; every other input is answered with the fixed
refusal message and never reaches the driver. In particular
"DROP TABLE data" and "UPDATE data SET co2=0" are refused while a
lowercase or whitespace-prefixed select is executed. -/
theorem sql_query_select_gate :
    (∀ sql : String,
      (Agent.sql_query_gate sql = Agent.SqlOutcome.executed sql ↔
        PyStr.startswith (PyStr.upper (PyStr.strip sql)) Agent.select_keyword = true) ∧
      (Agent.sql_query_gate sql = Agent.SqlOutcome.executed sql ∨
        Agent.sql_query_gate sql =
          Agent.SqlOutcome.refused Agent.sql_refusal_message)) ∧
    Agent.sql_query_gate stmt_drop =
      Agent.SqlOutcome.refused Agent.sql_refusal_message ∧
    Agent.sql_query_gate stmt_update =
      Agent.SqlOutcome.refused Agent.sql_refusal_message ∧
    Agent.sql_query_gate stmt_select_lower =
      Agent.SqlOutcome.executed stmt_select_lower ∧
    Agent.sql_query_gate stmt_select_padded =
      Agent.SqlOutcome.executed stmt_select_padded := by
  refine ⟨fun sql => ?_, by decide, by decide, by decide, by decide⟩
  unfold Agent.sql_query_gate
  by_cases h : PyStr.startswith (PyStr.upper (PyStr.strip sql)) Agent.select_keyword = true
  · simp [h]
  · simp [h]

/-- C4 counterexample: starting from a state where all three directories of
the tabular converter are absent, the directory-creation step of main
creates data/processed and databases but leaves data/unprocessed absent,
and main then stops before processing anything; the claim that all three
directories are created whenever absent is false. -/
theorem main_dir_phase_counterexample :
    DataToDb.main_dir_phase
        { unprocessed := false, processed := false, databases := false } =
      ({ unprocessed := false, processed := true, databases := true }, false) :=
  rfl

/-- C4 amended: before any file is processed, main creates data/processed
and databases whenever absent; it never creates data/unprocessed, and main
proceeds past its directory phase (toward processing files) iff
data/unprocessed already existed. -/
theorem main_dir_phase_spec (s : DataToDb.DirState) :
    DataToDb.main_dir_phase s =
      ({ unprocessed := s.unprocessed, processed := true, databases := true },
        s.unprocessed) :=
  rfl

/-- C5: create_chunk_form returns exactly one record per chunk of the raw
result, in order; the document id generated for the call is a three-letter
string shared by every record, the k-th record (1-based) has chunk_id equal
to that id followed by k rendered under format spec 03d, its text is the
chunk content verbatim, and its file_name is the given name. -/
theorem create_chunk_form_records (raw : ProcessDoc.RawResult)
    (file_name : String) (picks : Fin 26 × Fin 26 × Fin 26) :
    (ProcessDoc.create_chunk_form raw file_name picks).length =
      raw.chunks.length ∧
    (ProcessDoc.generate_document_id picks).length = 3 ∧
    ∀ (k : Nat) (cd : ProcessDoc.ChunkData), raw.chunks.get? k = some cd →
      (ProcessDoc.create_chunk_form raw file_name picks).get? k =
        some
          { chunk_id :=
              ProcessDoc.generate_document_id picks ++
                PyStr.pad_zeros 3 (k + 1)
            text := cd.content
            file_name := file_name
            start_page := ProcessDoc.list_min (ProcessDoc.chunk_pages cd)
            end_page := ProcessDoc.list_max (ProcessDoc.chunk_pages cd) } :=
  ⟨form_chunks_length _ _ 1 raw.chunks, rfl,
   fun k cd hk => create_chunk_form_get? raw file_name picks k cd hk⟩

/-- Witness for C5 on the demo raw result: two records come back for two
chunks and the first record is ABC001 with the verbatim first content. -/
theorem create_chunk_form_records_witness :
    (ProcessDoc.create_chunk_form demo_raw report_pdf picks_abc).length =
      demo_raw.chunks.length ∧
    (ProcessDoc.create_chunk_form demo_raw report_pdf picks_abc).get? 0 =
      some
        { chunk_id :=
            ProcessDoc.generate_document_id picks_abc ++ PyStr.pad_zeros 3 (0 + 1)
          text := demo_chunk0.content
          file_name := "report.pdf"
          start_page := ProcessDoc.list_min (ProcessDoc.chunk_pages demo_chunk0)
          end_page := ProcessDoc.list_max (ProcessDoc.chunk_pages demo_chunk0) } ∧
    (ProcessDoc.create_chunk_form demo_raw report_pdf picks_abc).get? 0 =
      some { chunk_id := "ABC001", text := "first", file_name := "report.pdf",
             start_page := some 3, end_page := some 5 } :=
  ⟨(create_chunk_form_records demo_raw report_pdf picks_abc).1,
   (create_chunk_form_records demo_raw report_pdf picks_abc).2.2 0
     demo_chunk0 rfl,
   by decide⟩

/-- C6: for every chunk of a raw result, the record create_chunk_form
builds carries start_page and end_page computed from the pages collected
over exactly those blocks having a bbox with an original_page key: both
fields are absent when no block carries a page, and otherwise start_page is
the minimum and end_page the maximum of the collected pages. -/
theorem create_chunk_form_page_range (raw : ProcessDoc.RawResult)
    (file_name : String) (picks : Fin 26 × Fin 26 × Fin 26) (k : Nat)
    (cd : ProcessDoc.ChunkData) (hk : raw.chunks.get? k = some cd) :
    ∃ rec : ProcessDoc.ChunkRecord,
      (ProcessDoc.create_chunk_form raw file_name picks).get? k = some rec ∧
      rec.start_page = ProcessDoc.list_min (ProcessDoc.chunk_pages cd) ∧
      rec.end_page = ProcessDoc.list_max (ProcessDoc.chunk_pages cd) ∧
      (ProcessDoc.chunk_pages cd = [] →
        rec.start_page = none ∧ rec.end_page = none) ∧
      (ProcessDoc.chunk_pages cd ≠ [] →
        ∃ a b : Int, rec.start_page = some a ∧ rec.end_page = some b ∧
          a ∈ ProcessDoc.chunk_pages cd ∧ b ∈ ProcessDoc.chunk_pages cd ∧
          ∀ p ∈ ProcessDoc.chunk_pages cd, a ≤ p ∧ p ≤ b) := by
  refine ⟨_, create_chunk_form_get? raw file_name picks k cd hk, rfl, rfl,
    ?_, ?_⟩
  · intro hempty
    simp [hempty, ProcessDoc.list_min, ProcessDoc.list_max]
  · intro hne
    cases hmin : ProcessDoc.list_min (ProcessDoc.chunk_pages cd) with
    | none => exact absurd ((list_min_eq_none _).mp hmin) hne
    | some a =>
      cases hmax : ProcessDoc.list_max (ProcessDoc.chunk_pages cd) with
      | none => exact absurd ((list_max_eq_none _).mp hmax) hne
      | some b =>
        rcases list_min_spec _ _ hmin with ⟨hamem, halb⟩
        rcases list_max_spec _ _ hmax with ⟨hbmem, hbub⟩
        exact ⟨a, b, by simp [hmin], by simp [hmax], hamem, hbmem,
          fun p hp => ⟨halb p hp, hbub p hp⟩⟩

/-- Witness for C6: the demo chunk whose block pages are 3, 5, 4 yields
start_page 3 and end_page 5, and the page-less demo chunk yields both
fields absent. -/
theorem create_chunk_form_page_range_witness :
    (∃ rec : ProcessDoc.ChunkRecord,
      (ProcessDoc.create_chunk_form demo_raw report_pdf picks_abc).get? 0 =
        some rec ∧
      rec.start_page =
        ProcessDoc.list_min (ProcessDoc.chunk_pages demo_chunk0) ∧
      rec.end_page =
        ProcessDoc.list_max (ProcessDoc.chunk_pages demo_chunk0) ∧
      (ProcessDoc.chunk_pages demo_chunk0 = [] →
        rec.start_page = none ∧ rec.end_page = none) ∧
      (ProcessDoc.chunk_pages demo_chunk0 ≠ [] →
        ∃ a b : Int, rec.start_page = some a ∧ rec.end_page = some b ∧
          a ∈ ProcessDoc.chunk_pages demo_chunk0 ∧
          b ∈ ProcessDoc.chunk_pages demo_chunk0 ∧
          ∀ p ∈ ProcessDoc.chunk_pages demo_chunk0, a ≤ p ∧ p ≤ b)) ∧
    (ProcessDoc.create_chunk_form demo_raw report_pdf picks_abc).get? 1 =
      some { chunk_id := "ABC002", text := "second", file_name := "report.pdf",
             start_page := none, end_page := none } :=
  ⟨create_chunk_form_page_range demo_raw report_pdf picks_abc 0 demo_chunk0
     rfl,
   by decide⟩

/-- C7: when the converter raises on a supported tabular file, process_file
propagates the error to its caller (so no state change, and in particular
no move out of the intake directory, is delivered), and in the batch loop
the failure is caught, the loop continues on the remaining files from the
unchanged state with the failed tally bumped, and over any list of
discovered files the successes and failures always sum to the number of
files. -/
theorem process_file_failure_contract
    (conv_csv conv_xlsx : DataToDb.TabFile → Except String Unit)
    (st : DataToDb.FsState) (f : DataToDb.TabFile)
    (rest : List DataToDb.TabFile) (e : String)
    (hsup : PyStr.lower f.suffix = ".csv" ∨ PyStr.lower f.suffix = ".xlsx" ∨
      PyStr.lower f.suffix = ".xls")
    (herr :
      (if PyStr.lower f.suffix = ".csv" then conv_csv f else conv_xlsx f) =
        Except.error e) :
    DataToDb.process_file conv_csv conv_xlsx st f = Except.error e ∧
    DataToDb.run_files conv_csv conv_xlsx (f :: rest) st =
      ((DataToDb.run_files conv_csv conv_xlsx rest st).1,
       (DataToDb.run_files conv_csv conv_xlsx rest st).2.1,
       (DataToDb.run_files conv_csv conv_xlsx rest st).2.2 + 1) ∧
    (∀ (files : List DataToDb.TabFile) (st0 : DataToDb.FsState),
      (DataToDb.run_files conv_csv conv_xlsx files st0).2.1 +
        (DataToDb.run_files conv_csv conv_xlsx files st0).2.2 =
          files.length) := by
  have h1 : DataToDb.process_file conv_csv conv_xlsx st f = Except.error e := by
    rcases hsup with h | h | h
    · rw [if_pos h] at herr
      simp [DataToDb.process_file, h, herr]
    · have hne : PyStr.lower f.suffix ≠ ".csv" := by rw [h]; decide
      rw [if_neg hne] at herr
      simp [DataToDb.process_file, h, herr]
    · have hne : PyStr.lower f.suffix ≠ ".csv" := by rw [h]; decide
      rw [if_neg hne] at herr
      simp [DataToDb.process_file, h, herr]
  refine ⟨h1, ?_, run_files_tally conv_csv conv_xlsx⟩
  simp [DataToDb.run_files, h1]

/-- Witness for C7: a CSV converter that raises on the demo CSV file makes
process_file propagate the error, and the two-file batch counts the CSV
failure while continuing from the unchanged state. -/
theorem process_file_failure_contract_witness :
    DataToDb.process_file conv_csv_fail conv_xlsx_ok demo_fs file_a =
      Except.error bad_csv_msg ∧
    DataToDb.run_files conv_csv_fail conv_xlsx_ok [file_a, file_b] demo_fs =
      ((DataToDb.run_files conv_csv_fail conv_xlsx_ok [file_b] demo_fs).1,
       (DataToDb.run_files conv_csv_fail conv_xlsx_ok [file_b] demo_fs).2.1,
       (DataToDb.run_files conv_csv_fail conv_xlsx_ok [file_b] demo_fs).2.2 +
         1) :=
  ⟨(process_file_failure_contract conv_csv_fail conv_xlsx_ok demo_fs file_a
      [file_b] bad_csv_msg (Or.inl rfl) rfl).1,
   (process_file_failure_contract conv_csv_fail conv_xlsx_ok demo_fs file_a
      [file_b] bad_csv_msg (Or.inl rfl) rfl).2.1⟩

/-- C8: hybrid_search is a total function of the search outcome — no case
raises. An exception during the search produces the descriptive error
string with the failure text appended, an empty result set produces the
fixed non-empty no-results message, and a nonempty result set produces the
formatted blocks joined by the separator line. -/
theorem hybrid_search_total_behavior
    (outcome : Except String (List Agent.SearchRow)) :
    ((∃ e, outcome = Except.error e ∧
        Agent.hybrid_search outcome = "Error performing hybrid search: " ++ e) ∨
      (outcome = Except.ok [] ∧
        Agent.hybrid_search outcome = Agent.no_results_message) ∨
      (∃ rows, outcome = Except.ok rows ∧ rows ≠ [] ∧
        Agent.hybrid_search outcome =
          String.intercalate Agent.result_separator
            (rows.map Agent.format_row))) ∧
    Agent.no_results_message ≠ "" := by
  constructor
  · cases outcome with
    | error e => exact Or.inl ⟨e, rfl, rfl⟩
    | ok rows =>
      cases rows with
      | nil => exact Or.inr (Or.inl ⟨rfl, rfl⟩)
      | cons r rs => exact Or.inr (Or.inr ⟨r :: rs, rfl, by simp, rfl⟩)
  · decide

set_option maxRecDepth 10000 in
/-- C9 counterexample: on a raw result with 1000 chunks the record at
1-based index 1000 has chunk_id ABC1000 — seven characters — so the claim
that every chunk_id matches the three-letters-three-digits pattern
regardless of the number of chunks is false. -/
theorem chunk_id_pattern_fails_at_1000 :
    ∃ rec ∈ ProcessDoc.create_chunk_form big_raw report_pdf picks_abc,
      ProcessDoc.matches_chunk_id_pattern rec.chunk_id = false ∧
      rec.chunk_id.length ≠ 6 := by
  have hget : big_raw.chunks.get? 999 =
      some { content := "t", blocks := none } := by
    rw [show big_raw.chunks =
        List.replicate 1000
          ({ content := "t", blocks := none } : ProcessDoc.ChunkData) from rfl,
      List.get?_eq_getElem?, List.getElem?_replicate]
    rfl
  have h := create_chunk_form_get? big_raw report_pdf picks_abc 999 _ hget
  exact ⟨_, List.get?_mem h, by decide, by decide⟩

/-- C9 amended: every chunk_id produced by create_chunk_form is the
three-letter document id followed by the 1-based chunk index rendered under
format spec 03d; whenever the raw result has at most 999 chunks — the
padding width — every chunk_id matches the pattern of exactly three
uppercase letters followed by exactly three digits. -/
theorem chunk_id_pattern_up_to_999 (raw : ProcessDoc.RawResult)
    (file_name : String) (picks : Fin 26 × Fin 26 × Fin 26)
    (hlen : raw.chunks.length ≤ 999) (rec : ProcessDoc.ChunkRecord)
    (hrec : rec ∈ ProcessDoc.create_chunk_form raw file_name picks) :
    ProcessDoc.matches_chunk_id_pattern rec.chunk_id = true := by
  rcases List.mem_iff_get?.mp hrec with ⟨k, hk⟩
  rw [ProcessDoc.create_chunk_form,
    form_chunks_get? (ProcessDoc.generate_document_id picks) file_name
      raw.chunks 1 k] at hk
  rcases Option.map_eq_some'.mp hk with ⟨cd, hcd, hrec2⟩
  have hklt : k < raw.chunks.length := by
    rcases List.get?_eq_some.mp hcd with ⟨h, _⟩
    exact h
  have hid : rec.chunk_id =
      ProcessDoc.generate_document_id picks ++ PyStr.pad_zeros 3 (1 + k) := by
    rw [← hrec2]
    rfl
  have hnum : 1 + k < 1000 := by omega
  rcases pad3_digits (1 + k) hnum with ⟨hplen, hpdig⟩
  rcases List.length_eq_three.mp hplen with ⟨d, e, f, hde⟩
  rw [hde] at hpdig
  have hdata : rec.chunk_id.data =
      [Char.ofNat (65 + picks.1.val), Char.ofNat (65 + picks.2.1.val),
       Char.ofNat (65 + picks.2.2.val), d, e, f] := by
    rw [hid, String.data_append, generate_document_id_data, hde]
    rfl
  exact matches_pattern_of _ _ _ d e f _ hdata
    (is_upper_letter _ picks.1.isLt) (is_upper_letter _ picks.2.1.isLt)
    (is_upper_letter _ picks.2.2.isLt) (hpdig d (by simp))
    (hpdig e (by simp)) (hpdig f (by simp))

/-- Witness for C9 amended: the first record of the two-chunk demo result
has chunk_id ABC001, which matches the pattern. -/
theorem chunk_id_pattern_up_to_999_witness :
    ProcessDoc.matches_chunk_id_pattern
      ({ chunk_id := "ABC001", text := "first", file_name := "report.pdf",
         start_page := some 3, end_page := some 5 } :
        ProcessDoc.ChunkRecord).chunk_id = true :=
  chunk_id_pattern_up_to_999 demo_raw report_pdf picks_abc (by decide) _
    (by decide)

/-- C10: a legitimate chunk-form record produced by create_chunk_form for a
chunk none of whose blocks carries a page value has start_page and end_page
null, and the DocumentChunk schema of the uploader — which declares both
fields as required integers — rejects exactly such a record, so this valid
pipeline output is not loadable by the uploader. -/
theorem pageless_chunk_rejected_by_schema :
    ∃ rec ∈ ProcessDoc.create_chunk_form pageless_raw report_pdf picks_abc,
      rec.start_page = none ∧ rec.end_page = none ∧
      DocToLance.document_chunk_accepts rec = false :=
  ⟨{ chunk_id := "ABC001", text := "Body text", file_name := "report.pdf",
     start_page := none, end_page := none },
   by decide, rfl, rfl, rfl⟩
